import Mathlib

/-!
# Verification of the streamsec Terraform provider's CRUD handlers

A shallow embedding of the resource and data-source handlers of
`terraform-provider-streamsec` (package `internal/provider`) together with the
helper functions of `internal/utils/helper_functions.go`.

Modelling conventions:

* `types.String` of the terraform-plugin-framework is an inductive `TfString`
  with `null`, `unknown` and `value s` states; `ValueString()` is
  `TfString.valueString`.
* A string-typed `types.List` is modelled by its element slice
  (`List TfString`), a string-typed `types.Map` by an association list.
* `StringValue.String()` renders a known value with Go's `%q` verb
  (`strconv.Quote`); `goQuote` models that rendering for ASCII input
  (printable characters are kept verbatim, the double quote and backslash
  receive backslash escapes, control characters get their Go escape).
* Each CRUD handler becomes a pure function from the Terraform plan/state it
  reads and the responses of the remote calls it issues to an `OpResult`:
  the diagnostics it adds, the action it takes on the Terraform state and
  the list of remote requests it issues, in order.  A remote call's outcome
  is an `Except GoError` value supplied as an argument.
* Handlers whose paths dereference response map entries that can be absent
  (`AWSResponseAckResource.Create/Read`, and `EKSClusterResource.Read`, whose
  query never selects the `eks_arn` its loop asserts) return
  `Option (OpResult _)`, `none` standing for the Go runtime panic on a nil
  type assertion; such query-omitted fields are typed as `Option` in the
  entry structures.
-/

namespace Streamsec

/-- A Go `error` value, identified with its `Error()` string. -/
abbrev GoError := String

/-- `terraform-plugin-framework` `types.String`: null, unknown, or a known
string value. -/
inductive TfString where
  | null
  | unknown
  | value (s : String)
deriving DecidableEq, Repr

/-- `StringValue.ValueString()`: the known value, or `""` for null/unknown. -/
def TfString.valueString : TfString → String
  | .value s => s
  | _ => ""

/-- `true` exactly on known (non-null, non-unknown) values. -/
def TfString.isKnownValue : TfString → Bool
  | .value _ => true
  | _ => false

/-- Lower-case hexadecimal digit, as used by `strconv.Quote`: `0`-`9` for
values below ten, `a`-`f` above. -/
def hexDigit (n : Nat) : Char :=
  if n < 10 then Char.ofNat (48 + n) else Char.ofNat (87 + n)

/-- Rendering of a single character inside a Go double-quoted literal, as
produced by `strconv.Quote` (the implementation of the `%q` verb that
`StringValue.String()` uses).  The double quote and backslash receive a
backslash escape, the named control characters their Go escapes, the other
ASCII control characters (and DEL) a `\xHH` escape; printable characters are
kept verbatim. -/
def goQuoteChar (c : Char) : List Char :=
  if c = '"' then ['\\', '"']
  else if c = '\\' then ['\\', '\\']
  else if c.toNat = 7 then ['\\', 'a']
  else if c.toNat = 8 then ['\\', 'b']
  else if c.toNat = 12 then ['\\', 'f']
  else if c = '\n' then ['\\', 'n']
  else if c = '\r' then ['\\', 'r']
  else if c = '\t' then ['\\', 't']
  else if c.toNat = 11 then ['\\', 'v']
  else if c.toNat < 32 ∨ c.toNat = 127 then
    ['\\', 'x', hexDigit (c.toNat / 16), hexDigit (c.toNat % 16)]
  else [c]

/-- `strconv.Quote` on the character list of a string. -/
def goQuoteL (cs : List Char) : List Char :=
  '"' :: (cs.map goQuoteChar).flatten ++ ['"']

/-- `strconv.Quote s`, the rendering `fmt.Sprintf("%q", s)` of a Go string. -/
def goQuote (s : String) : String :=
  ⟨goQuoteL s.data⟩

/-- `attr.Value.String()` for a `types.String`: `"<null>"`, `"<unknown>"`, or
the `%q` rendering of the known value. -/
def TfString.render : TfString → String
  | .null => "<null>"
  | .unknown => "<unknown>"
  | .value s => goQuote s

/-- `strings.Replace(s, "\"", "", -1)` on the character list. -/
def removeQuotesL (cs : List Char) : List Char :=
  cs.filter (fun c => c != '"')

/-- `strings.Replace(s, "\"", "", -1)`: drop every double quote. -/
def removeQuotes (s : String) : String :=
  ⟨removeQuotesL s.data⟩

/-- `utils.ConvertToStringSlice`: render each element and strip every double
quote from the rendering. -/
def ConvertToStringSlice (values : List TfString) : List String :=
  values.map (fun v => removeQuotes v.render)

/-- `utils.ConvertInterfaceToTypesList`: wrap each decoded string as a known
`types.String` element of a string-typed list. -/
def ConvertInterfaceToTypesList (values : List String) : List TfString :=
  values.map TfString.value

/-- `utils.ConvertStringsArrayToTypesList`: wrap each string as a known
`types.String` element of a string-typed list. -/
def ConvertStringsArrayToTypesList (values : List String) : List TfString :=
  values.map TfString.value

/-- `utils.ConvertToStringMap`: render each map value and strip its double
quotes. -/
def ConvertToStringMap (values : List (String × TfString)) : List (String × String) :=
  values.map (fun kv => (kv.1, removeQuotes kv.2.render))

/-- The element-by-element comparison loop inside `utils.EqualListValues`. -/
def eqElems : List TfString → List TfString → Bool
  | [], [] => true
  | x :: xs, y :: ys => x == y && eqElems xs ys
  | _, _ => false

/-- `utils.EqualListValues`: false when the lengths differ, otherwise compare
the elements pairwise. -/
def EqualListValues (a b : List TfString) : Bool :=
  if a.length != b.length then false else eqElems a b

/-- A diagnostic added through `resp.Diagnostics.AddError(summary, detail)`. -/
structure Diag where
  summary : String
  detail : String
deriving DecidableEq, Repr

/-- What the handler did to the Terraform state: returned without touching
it, wrote a model via `resp.State.Set`, or called `resp.State.RemoveResource`. -/
inductive StateAction (σ : Type) where
  | none
  | set (s : σ)
  | remove
deriving DecidableEq, Repr

/-- One blocking remote call issued by a handler: a GraphQL query or mutation
sent through `client.DoRequest`/`DoRequestWithToken`, or a REST call sent
through `http.DefaultClient.Do`. -/
inductive Request where
  | accountsQuery
  | kubernetesQuery
  | createAccount (account_type cloud_account_id display_name : String)
      (cloud_regions : List String) (stack_region : String)
  | createKubernetes (display_name arn : String)
  | updateAccount (id display_name : String) (cloud_regions : List String)
  | updateAccountAzureAck (id : String) (subscriptions : List String)
      (client_id client_secret : String)
  | deleteAccount (id : String)
  | httpPost (url : String)
  | httpDelete (url : String)
deriving DecidableEq, Repr

/-- The observable outcome of one CRUD handler invocation. -/
structure OpResult (σ : Type) where
  diags : List Diag
  state : StateAction σ
  requests : List Request
deriving DecidableEq, Repr

/-- An HTTP response as inspected by the ack handlers: `resp.StatusCode` and
`resp.Status`. -/
structure HttpResp where
  statusCode : Nat
  status : String
deriving DecidableEq, Repr

/-! ## streamsec_aws_account (`aws_account_resource.go`) -/

/-- `AWSAccountResourceModel`: the flat state model of `streamsec_aws_account`. -/
structure AWSAccountResourceModel where
  id : TfString
  display_name : TfString
  cloud_account_id : TfString
  cloud_regions : List TfString
  stack_region : TfString
  template_url : TfString
  external_id : TfString
  streamsec_collection_token : TfString
  account_auth_token : TfString
deriving DecidableEq, Repr

/-- The JSON object under `createAccount` in the response to the
`CreateAccount` mutation, with the fields the handler reads. -/
structure CreateAccountResponse where
  id : String
  template_url : String
  external_id : String
  lightlytics_collection_token : String
  account_auth_token : String
deriving DecidableEq, Repr

/-- One entry of the `accounts` list returned for the Read query of
`aws_account_resource.go`, with the fields the handler reads. -/
structure AWSAccountEntry where
  id : String
  account_type : String
  cloud_account_id : String
  display_name : String
  cloud_regions : List String
  stack_region : String
  template_url : String
  external_id : String
  lightlytics_collection_token : String
  account_auth_token : String
deriving DecidableEq, Repr

namespace AWSAccountResource

/-- The model `AWSAccountResource.Create` writes to state on success: the plan
with the five response fields merged in. -/
def createdModel (plan : AWSAccountResourceModel) (account : CreateAccountResponse) :
    AWSAccountResourceModel :=
  { plan with
    id := .value account.id,
    template_url := .value account.template_url,
    external_id := .value account.external_id,
    streamsec_collection_token := .value account.lightlytics_collection_token,
    account_auth_token := .value account.account_auth_token }

/-- `AWSAccountResource.Create`: issue the `CreateAccount` mutation built from
the plan, then either surface the request error or merge the response fields
into the plan and write it to state. -/
def create (plan : AWSAccountResourceModel)
    (res : Except GoError CreateAccountResponse) : OpResult AWSAccountResourceModel :=
  let req := Request.createAccount "AWS" plan.cloud_account_id.valueString
      plan.display_name.valueString (ConvertToStringSlice plan.cloud_regions)
      plan.stack_region.valueString
  match res with
  | .error err =>
      { diags := [⟨"Client Error", "Unable to create account, got error: " ++ err⟩],
        state := .none, requests := [req] }
  | .ok account =>
      { diags := [], state := .set (createdModel plan account), requests := [req] }

/-- The assignments performed on a matching entry inside the Read loop. -/
def applyEntry (data : AWSAccountResourceModel) (account : AWSAccountEntry) :
    AWSAccountResourceModel :=
  { data with
    id := .value account.id,
    display_name := .value account.display_name,
    cloud_regions := ConvertInterfaceToTypesList account.cloud_regions,
    stack_region := .value account.stack_region,
    template_url := .value account.template_url,
    external_id := .value account.external_id,
    streamsec_collection_token := .value account.lightlytics_collection_token,
    account_auth_token := .value account.account_auth_token }

/-- The `for _, acc := range accounts` loop of `AWSAccountResource.Read`:
every matching entry overwrites the model, the flag records whether any
entry matched. -/
def readLoop (accounts : List AWSAccountEntry) (data : AWSAccountResourceModel)
    (found : Bool) : AWSAccountResourceModel × Bool :=
  match accounts with
  | [] => (data, found)
  | account :: rest =>
      if account.cloud_account_id == data.cloud_account_id.valueString then
        readLoop rest (applyEntry data account) true
      else
        readLoop rest data found

/-- `AWSAccountResource.Read`: list all accounts, replay the prior state's
entry from the one(s) whose `cloud_account_id` matches, and error when none
does. -/
def read (state : AWSAccountResourceModel)
    (res : Except GoError (List AWSAccountEntry)) : OpResult AWSAccountResourceModel :=
  match res with
  | .error err =>
      { diags := [⟨"Client Error", "Unable to get account, got error: " ++ err⟩],
        state := .none, requests := [.accountsQuery] }
  | .ok accounts =>
      let r := readLoop accounts state false
      if !r.2 then
        { diags := [⟨"Resource not found",
            "Unable to get account, account with cloud_account_id: " ++
            state.cloud_account_id.valueString ++
            " not found in Stream.Security API and probably deleted manually." ++
            "Please remove the resource from the terraform state."⟩],
          state := .none, requests := [.accountsQuery] }
      else
        { diags := [], state := .set r.1, requests := [.accountsQuery] }

/-- `AWSAccountResource.Update`: issue the `UpdateAccount` mutation only when
the display name or the region list changed, then write the plan to state. -/
def update (plan state : AWSAccountResourceModel)
    (res : Except GoError Unit) : OpResult AWSAccountResourceModel :=
  if plan.display_name != state.display_name ||
      !(EqualListValues plan.cloud_regions state.cloud_regions) then
    let req := Request.updateAccount plan.id.valueString plan.display_name.valueString
        (ConvertToStringSlice plan.cloud_regions)
    match res with
    | .error err =>
        { diags := [⟨"Client Error", "Unable to update account, got error: " ++ err⟩],
          state := .none, requests := [req] }
    | .ok _ =>
        { diags := [], state := .set plan, requests := [req] }
  else
    { diags := [], state := .set plan, requests := [] }

/-- `AWSAccountResource.Delete`: issue the `DeleteAccount` mutation; the state
is never written (Terraform drops it on success). -/
def delete (state : AWSAccountResourceModel)
    (res : Except GoError Unit) : OpResult AWSAccountResourceModel :=
  let req := Request.deleteAccount state.id.valueString
  match res with
  | .error err =>
      { diags := [⟨"Client Error", "Unable to delete account, got error: " ++ err⟩],
        state := .none, requests := [req] }
  | .ok _ =>
      { diags := [], state := .none, requests := [req] }

end AWSAccountResource

/-! ## streamsec_eks_cluster (`eks_cluster_resource.go`) -/

/-- `EKSClusterResourceModel`: the flat state model of `streamsec_eks_cluster`. -/
structure EKSClusterResourceModel where
  id : TfString
  arn : TfString
  display_name : TfString
  status : TfString
  collection_token : TfString
  creation_date : TfString
deriving DecidableEq, Repr

/-- The JSON object under `createKubernetes` in the response to the
`CreateKubernetes` mutation. -/
structure CreateKubernetesResponse where
  id : String
  status : String
  collection_token : String
  creation_date : String
deriving DecidableEq, Repr

/-- One entry of the `kubernetes` list as accessed by
`EKSClusterResource.Read`.  The Read query selects only `_id`,
`display_name`, `status`, `collection_token` and `creation_date`, yet the
loop asserts `cluster["eks_arn"].(string)`; `eks_arn` is therefore an
`Option`, absent (`none`) in every faithful GraphQL response, and the absent
case makes the type assertion panic. -/
structure KubernetesEntry where
  id : String
  eks_arn : Option String
  display_name : String
  status : String
  collection_token : String
  creation_date : String
deriving DecidableEq, Repr

namespace EKSClusterResource

/-- The model `EKSClusterResource.Create` writes to state on success. -/
def createdModel (plan : EKSClusterResourceModel) (cluster : CreateKubernetesResponse) :
    EKSClusterResourceModel :=
  { plan with
    id := .value cluster.id,
    status := .value cluster.status,
    collection_token := .value cluster.collection_token,
    creation_date := .value cluster.creation_date }

/-- `EKSClusterResource.Create`: issue the `CreateKubernetes` mutation built
from the plan, then surface the error or merge the response into the plan. -/
def create (plan : EKSClusterResourceModel)
    (res : Except GoError CreateKubernetesResponse) : OpResult EKSClusterResourceModel :=
  let req := Request.createKubernetes plan.display_name.valueString plan.arn.valueString
  match res with
  | .error err =>
      { diags := [⟨"Client Error", "Unable to create account, got error: " ++ err⟩],
        state := .none, requests := [req] }
  | .ok cluster =>
      { diags := [], state := .set (createdModel plan cluster), requests := [req] }

/-- The assignments performed on a matching entry inside the Read loop. -/
def applyEntry (data : EKSClusterResourceModel) (cluster : KubernetesEntry) :
    EKSClusterResourceModel :=
  { data with
    id := .value cluster.id,
    display_name := .value cluster.display_name,
    status := .value cluster.status,
    collection_token := .value cluster.collection_token,
    creation_date := .value cluster.creation_date }

/-- Outcome of the cluster-matching loop in `EKSClusterResource.Read`. -/
inductive ReadLoopOut where
  | panics
  | done (data : EKSClusterResourceModel) (found : Bool)
deriving DecidableEq, Repr

/-- The `for _, item := range clusters` loop of `EKSClusterResource.Read`:
the match condition itself asserts `cluster["eks_arn"].(string)`, so the loop
panics at the first entry without an `eks_arn` key — which, the Read query
never selecting `eks_arn`, is every entry of a faithful response. -/
def readLoop (clusters : List KubernetesEntry) (data : EKSClusterResourceModel)
    (found : Bool) : ReadLoopOut :=
  match clusters with
  | [] => .done data found
  | cluster :: rest =>
      match cluster.eks_arn with
      | some arn =>
          if arn == data.arn.valueString then
            readLoop rest (applyEntry data cluster) true
          else
            readLoop rest data found
      | none => .panics

/-- `EKSClusterResource.Read`: list the kubernetes clusters, replay the state
from the entry whose `eks_arn` matches, and error when none does; `none`
models the Go panic on the `eks_arn` type assertion. -/
def read (state : EKSClusterResourceModel)
    (res : Except GoError (List KubernetesEntry)) :
    Option (OpResult EKSClusterResourceModel) :=
  match res with
  | .error err =>
      some { diags := [⟨"Client Error", "Unable to get account, got error: " ++ err⟩],
             state := .none, requests := [.kubernetesQuery] }
  | .ok clusters =>
      match readLoop clusters state false with
      | .panics => none
      | .done data found =>
          if !found then
            some { diags := [⟨"Resource not found",
                     "Unable to get EKS cluster, cluster with ARN: " ++
                     state.arn.valueString ++ " not found in Stream.Security API."⟩],
                   state := .none, requests := [.kubernetesQuery] }
          else
            some { diags := [], state := .set data, requests := [.kubernetesQuery] }

end EKSClusterResource

/-! ## streamsec_azure_tenant_ack (`azure_tenant_ack_resource.go`) -/

/-- `AzureTenantAckResourceModel`: the flat state model of
`streamsec_azure_tenant_ack`. -/
structure AzureTenantAckResourceModel where
  id : TfString
  cloud_account_id : TfString
  client_id : TfString
  client_secret : TfString
  subscriptions : List TfString
  account_token : TfString
deriving DecidableEq, Repr

/-- One entry of the `accounts` list as accessed by
`AzureTenantAckResource.Create`. -/
structure AzureAckAccountEntry where
  id : String
  cloud_account_id : String
  account_token : String
deriving DecidableEq, Repr

namespace AzureTenantAckResource

/-- The `for _, acc := range accounts` loop of `AzureTenantAckResource.Create`:
a matching entry supplies the internal id and the account token. -/
def createLoop (accounts : List AzureAckAccountEntry)
    (data : AzureTenantAckResourceModel) (found : Bool) :
    AzureTenantAckResourceModel × Bool :=
  match accounts with
  | [] => (data, found)
  | account :: rest =>
      if account.cloud_account_id == data.cloud_account_id.valueString then
        createLoop rest
          { data with id := .value account.id, account_token := .value account.account_token }
          true
      else
        createLoop rest data found

/-- `AzureTenantAckResource.Create`: query the accounts for the tenant, then
POST the acknowledgement body to `/azure/account-acknowledge`; two remote
calls on the success path, a diagnostic and an early return on each failure. -/
def create (host : String) (plan : AzureTenantAckResourceModel)
    (accountsRes : Except GoError (List AzureAckAccountEntry))
    (ackRes : Except GoError HttpResp) : OpResult AzureTenantAckResourceModel :=
  match accountsRes with
  | .error err =>
      { diags := [⟨"Client Error", "Unable to get account, got error: " ++ err⟩],
        state := .none, requests := [.accountsQuery] }
  | .ok accounts =>
      let r := createLoop accounts plan false
      if !r.2 then
        { diags := [⟨"Resource not found",
            "Unable to get tenant, tenant with id: " ++
            plan.cloud_account_id.valueString ++ " not found in Stream.Security API."⟩],
          state := .none, requests := [.accountsQuery] }
      else
        let post := Request.httpPost ("https://" ++ host ++ "/azure/account-acknowledge")
        match ackRes with
        | .error err =>
            { diags := [⟨"Client Error", "Unable to ack region, got error: " ++ err⟩],
              state := .none, requests := [.accountsQuery, post] }
        | .ok ack =>
            if ack.statusCode != 200 then
              { diags := [⟨"Client Error", "Unable to create account, got error: " ++ ack.status⟩],
                state := .none, requests := [.accountsQuery, post] }
            else
              { diags := [], state := .set r.1, requests := [.accountsQuery, post] }

/-- `AzureTenantAckResource.Update`: issue the `UpdateAccount` mutation only
when the subscriptions, client id or client secret changed, then write the
plan to state. -/
def update (plan state : AzureTenantAckResourceModel)
    (res : Except GoError Unit) : OpResult AzureTenantAckResourceModel :=
  if !(EqualListValues plan.subscriptions state.subscriptions) ||
      plan.client_id != state.client_id || plan.client_secret != state.client_secret then
    let req := Request.updateAccountAzureAck plan.id.valueString
        (ConvertToStringSlice plan.subscriptions)
        plan.client_id.valueString plan.client_secret.valueString
    match res with
    | .error err =>
        { diags := [⟨"Client Error", "Unable to update account, got error: " ++ err⟩],
          state := .none, requests := [req] }
    | .ok _ =>
        { diags := [], state := .set plan, requests := [req] }
  else
    { diags := [], state := .set plan, requests := [] }

/-- `AzureTenantAckResource.Delete`: read the prior state and return; no
remote call is made and no diagnostic is added. -/
def delete (_state : AzureTenantAckResourceModel) : OpResult AzureTenantAckResourceModel :=
  { diags := [], state := .none, requests := [] }

end AzureTenantAckResource

/-! ## streamsec_aws_response_ack (`aws_response_ack_resource.go`)

The Go success paths of Create and Read dereference response-map entries
(`remediation`, top-level `policy_to_role_map`, top-level `external_id`) that
may be absent; an absent entry makes the Go type assertion panic.  The
embeddings return `Option (OpResult _)` with `none` for those panics; the
fields a type assertion produces are modelled as already typed. -/

/-- `AWSResponseAckResourceModel`: the flat state model of
`streamsec_aws_response_ack`. -/
structure AWSResponseAckResourceModel where
  id : TfString
  cloud_account_id : TfString
  region : TfString
  streamsec_collection_token : TfString
  role_arn : TfString
  runbook_list : List TfString
  runbook_role_list : List TfString
  policy_to_role_map : List (String × TfString)
  external_id : TfString
deriving DecidableEq, Repr

/-- The `remediation` object as accessed by `AWSResponseAckResource.Create`. -/
structure RemediationCreate where
  status : String
  role_arn : String
  runbook_list : List TfString
  runbook_role_list : List TfString
  policy_to_role_map : List (String × TfString)
  external_id : String
deriving DecidableEq, Repr

/-- One entry of the `accounts` list as accessed by
`AWSResponseAckResource.Create`. -/
structure RespAckCreateEntry where
  id : String
  cloud_account_id : String
  lightlytics_collection_token : String
  remediation : Option RemediationCreate
deriving DecidableEq, Repr

/-- The `remediation` object as accessed by `AWSResponseAckResource.Read`. -/
structure RemediationRead where
  status : String
  role_arn : String
  runbook_list : List TfString
  runbook_role_list : List TfString
deriving DecidableEq, Repr

/-- One entry of the `accounts` list as accessed by
`AWSResponseAckResource.Read`; `policy_to_role_map` and `external_id` are read
from the top level of the entry, where the Read query never asks for them. -/
structure RespAckReadEntry where
  id : String
  cloud_account_id : String
  lightlytics_collection_token : String
  remediation : Option RemediationRead
  policy_to_role_map : Option (List (String × TfString))
  external_id : Option String
deriving DecidableEq, Repr

namespace AWSResponseAckResource

/-- Outcome of the account-matching loop in `AWSResponseAckResource.Create`. -/
inductive CreateLoopOut where
  | ready
  | panics
  | done (data : AWSResponseAckResourceModel) (found : Bool)
deriving DecidableEq, Repr

/-- The `for _, acc := range accounts` loop of `AWSResponseAckResource.Create`:
abort with an error when the matching account's remediation is already READY,
panic on a nil remediation, otherwise copy the remediation fields. -/
def createLoop (accounts : List RespAckCreateEntry)
    (data : AWSResponseAckResourceModel) (found : Bool) : CreateLoopOut :=
  match accounts with
  | [] => .done data found
  | account :: rest =>
      if account.cloud_account_id == data.cloud_account_id.valueString then
        match account.remediation with
        | some rem =>
            if rem.status == "READY" then .ready
            else
              createLoop rest
                { data with
                  id := .value account.id,
                  streamsec_collection_token := .value account.lightlytics_collection_token,
                  role_arn := .value rem.role_arn,
                  runbook_list := rem.runbook_list,
                  runbook_role_list := rem.runbook_role_list,
                  policy_to_role_map := rem.policy_to_role_map,
                  external_id := .value rem.external_id }
                true
        | none => .panics
      else
        createLoop rest data found

/-- `AWSResponseAckResource.Create`: query the accounts, then POST the
remediation acknowledgement; `none` models the Go panic on a nil remediation. -/
def create (host : String) (plan : AWSResponseAckResourceModel)
    (accountsRes : Except GoError (List RespAckCreateEntry))
    (ackRes : Except GoError HttpResp) : Option (OpResult AWSResponseAckResourceModel) :=
  match accountsRes with
  | .error err =>
      some { diags := [⟨"Client Error", "Unable to get account, got error: " ++ err⟩],
             state := .none, requests := [.accountsQuery] }
  | .ok accounts =>
      match createLoop accounts plan false with
      | .ready =>
          some { diags := [⟨"Client Error", "Account remediation is already enabled"⟩],
                 state := .none, requests := [.accountsQuery] }
      | .panics => none
      | .done data found =>
          if !found then
            some { diags := [⟨"Resource not found",
                     "Unable to get account, account with cloud_account_id: " ++
                     data.cloud_account_id.valueString ++
                     " not found in Stream.Security API."⟩],
                   state := .none, requests := [.accountsQuery] }
          else
            let post := Request.httpPost
                ("https://" ++ host ++ "/api/accounts/accounts/remediation-acknowledge")
            match ackRes with
            | .error err =>
                some { diags := [⟨"Client Error",
                         "Unable to ack region, got error: " ++ err⟩],
                       state := .none, requests := [.accountsQuery, post] }
            | .ok ack =>
                if ack.statusCode != 200 then
                  some { diags := [⟨"Client Error",
                           "Unable to create account, got error: " ++ ack.status⟩],
                         state := .none, requests := [.accountsQuery, post] }
                else
                  some { diags := [], state := .set data,
                         requests := [.accountsQuery, post] }

/-- Outcome of the account-matching loop in `AWSResponseAckResource.Read`. -/
inductive ReadLoopOut where
  | removed
  | panics
  | done (data : AWSResponseAckResourceModel) (found : Bool)
deriving DecidableEq, Repr

/-- The `for _, acc := range accounts` loop of `AWSResponseAckResource.Read`:
a matching account whose remediation is not READY removes the resource from
state (unless an earlier match already set the flag); a match that proceeds
past the flag check panics on the absent top-level `policy_to_role_map` or
`external_id`. -/
def readLoop (accounts : List RespAckReadEntry)
    (data : AWSResponseAckResourceModel) (found : Bool) : ReadLoopOut :=
  match accounts with
  | [] => .done data found
  | account :: rest =>
      if account.cloud_account_id == data.cloud_account_id.valueString then
        let found1 :=
          match account.remediation with
          | some rem => if rem.status == "READY" then true else found
          | none => found
        if !found1 then .removed
        else
          match account.remediation, account.policy_to_role_map, account.external_id with
          | some rem, some m, some e =>
              readLoop rest
                { data with
                  id := .value account.id,
                  streamsec_collection_token := .value account.lightlytics_collection_token,
                  role_arn := .value rem.role_arn,
                  runbook_list := rem.runbook_list,
                  runbook_role_list := rem.runbook_role_list,
                  policy_to_role_map := m,
                  external_id := .value e }
                true
          | _, _, _ => .panics
      else
        readLoop rest data found

/-- `AWSResponseAckResource.Read`: list the accounts and rebuild the state
from a matching READY remediation; a missing or not-READY account removes the
resource from state without any diagnostic. -/
def read (state : AWSResponseAckResourceModel)
    (res : Except GoError (List RespAckReadEntry)) :
    Option (OpResult AWSResponseAckResourceModel) :=
  match res with
  | .error err =>
      some { diags := [⟨"Client Error", "Unable to get account, got error: " ++ err⟩],
             state := .none, requests := [.accountsQuery] }
  | .ok accounts =>
      match readLoop accounts state false with
      | .removed =>
          some { diags := [], state := .remove, requests := [.accountsQuery] }
      | .panics => none
      | .done data found =>
          if !found then
            some { diags := [], state := .remove, requests := [.accountsQuery] }
          else
            some { diags := [], state := .set data, requests := [.accountsQuery] }

/-- `AWSResponseAckResource.Update`: write the plan to state without any
remote call. -/
def update (plan _state : AWSResponseAckResourceModel) :
    OpResult AWSResponseAckResourceModel :=
  { diags := [], state := .set plan, requests := [] }

/-- `AWSResponseAckResource.Delete`: one DELETE call to the remediation
endpoint; the state is never written. -/
def delete (host : String) (state : AWSResponseAckResourceModel)
    (ackRes : Except GoError HttpResp) : OpResult AWSResponseAckResourceModel :=
  let req := Request.httpDelete
      ("https://" ++ host ++ "/api/accounts/accounts/remediation/" ++
        state.cloud_account_id.valueString)
  match ackRes with
  | .error err =>
      { diags := [⟨"Client Error", "Unable to delete remediation, got error: " ++ err⟩],
        state := .none, requests := [req] }
  | .ok ack =>
      if ack.statusCode != 200 then
        { diags := [⟨"Client Error", "Unable to delete remediation, got error: " ++ ack.status⟩],
          state := .none, requests := [req] }
      else
        { diags := [], state := .none, requests := [req] }

end AWSResponseAckResource

/-! ## streamsec_aws_account_ack Read (`aws_account_ack_resource.go`) -/

/-- `AWSAccountAckResourceModel`: the flat state model of
`streamsec_aws_account_ack`. -/
structure AWSAccountAckResourceModel where
  id : TfString
  role_arn : TfString
  cloud_account_id : TfString
  stack_region : TfString
deriving DecidableEq, Repr

/-- One entry of the `accounts` list as accessed by
`AWSAccountAckResource.Read`. -/
structure AWSAccountAckEntry where
  id : String
  cloud_account_id : String
  stack_region : String
deriving DecidableEq, Repr

namespace AWSAccountAckResource

/-- The `for _, acc := range accounts` loop of `AWSAccountAckResource.Read`. -/
def readLoop (accounts : List AWSAccountAckEntry)
    (data : AWSAccountAckResourceModel) (found : Bool) :
    AWSAccountAckResourceModel × Bool :=
  match accounts with
  | [] => (data, found)
  | account :: rest =>
      if account.cloud_account_id == data.cloud_account_id.valueString then
        readLoop rest
          { data with
            id := .value account.id,
            cloud_account_id := .value account.cloud_account_id,
            stack_region := .value account.stack_region }
          true
      else
        readLoop rest data found

/-- `AWSAccountAckResource.Read`: a missing account removes the resource from
state without any diagnostic. -/
def read (state : AWSAccountAckResourceModel)
    (res : Except GoError (List AWSAccountAckEntry)) : OpResult AWSAccountAckResourceModel :=
  match res with
  | .error err =>
      { diags := [⟨"Client Error", "Unable to get account, got error: " ++ err⟩],
        state := .none, requests := [.accountsQuery] }
  | .ok accounts =>
      let r := readLoop accounts state false
      if !r.2 then
        { diags := [], state := .remove, requests := [.accountsQuery] }
      else
        { diags := [], state := .set r.1, requests := [.accountsQuery] }

end AWSAccountAckResource

/-! ## streamsec_azure_tenant data source (`azure_tenant_data_source.go`) -/

/-- `AzureTenantDataSourceModel`: the flat model of the `streamsec_azure_tenant`
data source. -/
structure AzureTenantDataSourceModel where
  id : TfString
  cloud_account_id : TfString
  display_name : TfString
  template_url : TfString
  account_token : TfString
deriving DecidableEq, Repr

/-- One entry of the `accounts` list as accessed by
`AzureTenantDataSource.Read`; `cloud_account_id` may be absent (nil). -/
structure AzureDSEntry where
  id : String
  cloud_account_id : Option String
  display_name : String
  template_url : String
  account_token : String
  status : String
deriving DecidableEq, Repr

namespace AzureTenantDataSource

/-- Outcome of the account-matching loop in `AzureTenantDataSource.Read`. -/
inductive LoopOut where
  | deleting
  | done (data : AzureTenantDataSourceModel) (found : Bool)
deriving DecidableEq, Repr

/-- The assignments performed on a matching, non-DELETING entry. -/
def applyEntry (data : AzureTenantDataSourceModel) (account : AzureDSEntry) :
    AzureTenantDataSourceModel :=
  { data with
    id := .value account.id,
    display_name := .value account.display_name,
    template_url := .value account.template_url,
    account_token := .value account.account_token }

/-- The `for _, acc := range accounts` loop of `AzureTenantDataSource.Read`:
entries without a `cloud_account_id` are skipped, a matching entry in status
DELETING aborts with an error, other matching entries overwrite the model. -/
def readLoop (accounts : List AzureDSEntry) (data : AzureTenantDataSourceModel)
    (found : Bool) : LoopOut :=
  match accounts with
  | [] => .done data found
  | account :: rest =>
      match account.cloud_account_id with
      | some cid =>
          if cid == data.cloud_account_id.valueString then
            if account.status == "DELETING" then .deleting
            else readLoop rest (applyEntry data account) true
          else readLoop rest data found
      | none => readLoop rest data found

/-- `AzureTenantDataSource.Read`: list the accounts and fill the model from
the matching tenant; a DELETING tenant and a missing tenant each produce an
error diagnostic and no state write. -/
def read (config : AzureTenantDataSourceModel)
    (res : Except GoError (List AzureDSEntry)) : OpResult AzureTenantDataSourceModel :=
  match res with
  | .error err =>
      { diags := [⟨"Client Error", "Unable to get account, got error: " ++ err⟩],
        state := .none, requests := [.accountsQuery] }
  | .ok accounts =>
      match readLoop accounts config false with
      | .deleting =>
          { diags := [⟨"Resource status is DELETING",
              "Azure tenant with id: " ++ config.cloud_account_id.valueString ++
              " is being deleted."⟩],
            state := .none, requests := [.accountsQuery] }
      | .done data found =>
          if !found then
            { diags := [⟨"Resource not found",
                "Unable to get Azure tenant, Azure tenant with id: " ++
                config.cloud_account_id.valueString ++
                " not found in Stream.Security API."⟩],
              state := .none, requests := [.accountsQuery] }
          else
            { diags := [], state := .set data, requests := [.accountsQuery] }

end AzureTenantDataSource

/-! ## Attribute types of the provider's models (claim C7 data)

Every resource/data-source model struct of the provider, transcribed as the
list of its `tfsdk` attribute names with their framework value types.  The
element type recorded for a `types.List`/`types.Map` field is the
`ElementType` its schema declares. -/

/-- A terraform-plugin-framework attribute value type. -/
inductive AttrType where
  | string
  | bool
  | int64
  | float64
  | number
  | object
  | list (elem : AttrType)
  | set (elem : AttrType)
  | map (elem : AttrType)
deriving DecidableEq, Repr

/-- A flat string-like attribute: a string, a string-typed list, or a
string-typed map. -/
def AttrType.isFlatStringlike : AttrType → Bool
  | .string => true
  | .list .string => true
  | .map .string => true
  | _ => false

/-- Fields of `AWSAccountResourceModel` (`aws_account_resource.go`). -/
def awsAccountModelFields : List (String × AttrType) :=
  [("id", .string), ("display_name", .string), ("cloud_account_id", .string),
   ("cloud_regions", .list .string), ("stack_region", .string),
   ("template_url", .string), ("external_id", .string),
   ("streamsec_collection_token", .string), ("account_auth_token", .string)]

/-- Fields of `EKSClusterResourceModel` (`eks_cluster_resource.go`). -/
def eksClusterModelFields : List (String × AttrType) :=
  [("id", .string), ("arn", .string), ("display_name", .string),
   ("status", .string), ("collection_token", .string), ("creation_date", .string)]

/-- Fields of `AWSAccountAckResourceModel` (`aws_account_ack_resource.go`). -/
def awsAccountAckModelFields : List (String × AttrType) :=
  [("id", .string), ("role_arn", .string), ("cloud_account_id", .string),
   ("stack_region", .string)]

/-- Fields of `AWSCostAckResourceModel` (`aws_cost_ack_resource.go`). -/
def awsCostAckModelFields : List (String × AttrType) :=
  [("id", .string), ("cloud_account_id", .string), ("role_arn", .string),
   ("external_id", .string), ("bucket_arn", .string), ("cur_prefix", .string),
   ("streamsec_collection_token", .string)]

/-- Fields of `AWSRealTimeEventsAckResourceModel`
(`aws_real_time_events_ack_resource.go`). -/
def awsRealTimeEventsAckModelFields : List (String × AttrType) :=
  [("id", .string), ("cloud_account_id", .string), ("region", .string),
   ("streamsec_collection_token", .string)]

/-- Fields of `AWSResponseAckResourceModel` (`aws_response_ack_resource.go`). -/
def awsResponseAckModelFields : List (String × AttrType) :=
  [("id", .string), ("cloud_account_id", .string), ("region", .string),
   ("streamsec_collection_token", .string), ("role_arn", .string),
   ("runbook_list", .list .string), ("runbook_role_list", .list .string),
   ("policy_to_role_map", .map .string), ("external_id", .string)]

/-- Fields of `AzureTenantResourceModel` (`azure_tenant_resource.go`). -/
def azureTenantModelFields : List (String × AttrType) :=
  [("id", .string), ("display_name", .string), ("template_url", .string),
   ("account_token", .string)]

/-- Fields of `AzureTenantAckResourceModel` (`azure_tenant_ack_resource.go`). -/
def azureTenantAckModelFields : List (String × AttrType) :=
  [("id", .string), ("tenant_id", .string), ("client_id", .string),
   ("client_secret", .string), ("subscriptions", .list .string),
   ("account_token", .string)]

/-- Fields of `AzureTenantDataSourceModel` (`azure_tenant_data_source.go`). -/
def azureTenantDataSourceModelFields : List (String × AttrType) :=
  [("id", .string), ("tenant_id", .string), ("display_name", .string),
   ("template_url", .string), ("account_token", .string)]

/-- Fields of `GCPProjectResourceModel` (`gcp_project_resource.go`). -/
def gcpProjectModelFields : List (String × AttrType) :=
  [("id", .string), ("display_name", .string), ("project_id", .string),
   ("account_token", .string)]

/-- Fields of `GCPProjectAckResourceModel` (`gcp_project_ack_resource.go`). -/
def gcpProjectAckModelFields : List (String × AttrType) :=
  [("id", .string), ("project_id", .string), ("client_email", .string),
   ("private_key", .string), ("account_token", .string)]

/-- Fields of `GCPProjectDataSourceModel` (`gcp_project_data_source.go`). -/
def gcpProjectDataSourceModelFields : List (String × AttrType) :=
  [("id", .string), ("project_id", .string), ("display_name", .string),
   ("account_token", .string)]

/-- Fields of `AWSAccountDataSourceModel` (`gcp_project_data_source.go`,
second file). -/
def awsAccountDataSourceModelFields : List (String × AttrType) :=
  [("id", .string), ("cloud_account_id", .string), ("display_name", .string),
   ("cloud_regions", .list .string), ("template_url", .string),
   ("external_id", .string), ("streamsec_collection_token", .string),
   ("account_auth_token", .string)]

/-- Fields of `GCPResponseAckResourceModel` (`gcp_response_ack_resource.go`). -/
def gcpResponseAckModelFields : List (String × AttrType) :=
  [("id", .string), ("cloud_account_id", .string), ("account_token", .string),
   ("template_version", .string), ("runbook_list", .list .string),
   ("location", .string)]

/-- Fields of `GoogleWorkspaceResourceModel` (`google_workspace_resource.go`). -/
def googleWorkspaceModelFields : List (String × AttrType) :=
  [("id", .string), ("display_name", .string), ("customer_id", .string),
   ("client_email", .string), ("private_key", .string), ("account_token", .string)]

/-- Every resource and data-source model of the provider with its fields. -/
def allProviderModelFields : List (String × List (String × AttrType)) :=
  [("AWSAccountResourceModel", awsAccountModelFields),
   ("EKSClusterResourceModel", eksClusterModelFields),
   ("AWSAccountAckResourceModel", awsAccountAckModelFields),
   ("AWSCostAckResourceModel", awsCostAckModelFields),
   ("AWSRealTimeEventsAckResourceModel", awsRealTimeEventsAckModelFields),
   ("AWSResponseAckResourceModel", awsResponseAckModelFields),
   ("AzureTenantResourceModel", azureTenantModelFields),
   ("AzureTenantAckResourceModel", azureTenantAckModelFields),
   ("AzureTenantDataSourceModel", azureTenantDataSourceModelFields),
   ("GCPProjectResourceModel", gcpProjectModelFields),
   ("GCPProjectAckResourceModel", gcpProjectAckModelFields),
   ("GCPProjectDataSourceModel", gcpProjectDataSourceModelFields),
   ("AWSAccountDataSourceModel", awsAccountDataSourceModelFields),
   ("GCPResponseAckResourceModel", gcpResponseAckModelFields),
   ("GoogleWorkspaceResourceModel", googleWorkspaceModelFields)]

/-! ## The faithful backend of the round-trip claim (C3) -/

/-- The `accounts` entry held by a backend that faithfully stored the
`createAccount` mutation issued by `AWSAccountResource.create` (account type,
cloud account id, display name, the quote-stripped region renderings, stack
region) and that answered that mutation with `r`. -/
def faithfulAWSEntry (plan : AWSAccountResourceModel) (r : CreateAccountResponse) :
    AWSAccountEntry :=
  { id := r.id
    account_type := "AWS"
    cloud_account_id := plan.cloud_account_id.valueString
    display_name := plan.display_name.valueString
    cloud_regions := ConvertToStringSlice plan.cloud_regions
    stack_region := plan.stack_region.valueString
    template_url := r.template_url
    external_id := r.external_id
    lightlytics_collection_token := r.lightlytics_collection_token
    account_auth_token := r.account_auth_token }

/-- The `kubernetes` entry a backend that faithfully stored the
`CreateKubernetes` mutation (and answered it with `r`) returns for the Read
query of `eks_cluster_resource.go` — which selects `_id`, `display_name`,
`status`, `collection_token` and `creation_date` but not `eks_arn`, so per
GraphQL semantics `eks_arn` is absent from the reply. -/
def faithfulEKSEntry (plan : EKSClusterResourceModel) (r : CreateKubernetesResponse) :
    KubernetesEntry :=
  { id := r.id
    eks_arn := none
    display_name := plan.display_name.valueString
    status := r.status
    collection_token := r.collection_token
    creation_date := r.creation_date }

/-! ## Helper lemmas on quoting and the matching loops -/

/-- A character Go's `%q` keeps verbatim: printable ASCII other than the
double quote and the backslash. -/
def isPlainChar (c : Char) : Bool :=
  decide (32 ≤ c.toNat) && decide (c.toNat ≤ 126) && c != '"' && c != '\\'

theorem goQuoteChar_plain {c : Char} (h : isPlainChar c = true) :
    goQuoteChar c = [c] := by
  simp only [isPlainChar, Bool.and_eq_true, decide_eq_true_eq, bne_iff_ne, ne_eq] at h
  obtain ⟨⟨⟨h1, h2⟩, h3⟩, h4⟩ := h
  have hn : ¬ c = '\n' := by intro he; rw [he] at h1; exact absurd h1 (by decide)
  have hr : ¬ c = '\r' := by intro he; rw [he] at h1; exact absurd h1 (by decide)
  have ht : ¬ c = '\t' := by intro he; rw [he] at h1; exact absurd h1 (by decide)
  simp only [goQuoteChar, if_neg h3, if_neg h4, if_neg hn, if_neg hr, if_neg ht]
  rw [if_neg (by omega), if_neg (by omega), if_neg (by omega), if_neg (by omega),
    if_neg (by rintro (hlt | heq) <;> omega)]

theorem removeQuotesL_flatten_plain {cs : List Char} (h : cs.all isPlainChar = true) :
    removeQuotesL ((cs.map goQuoteChar).flatten) = cs := by
  induction cs with
  | nil => rfl
  | cons c cs ih =>
      simp only [List.all_cons, Bool.and_eq_true] at h
      obtain ⟨hc, hcs⟩ := h
      have hcq : (c != '"') = true := by
        simp only [isPlainChar, Bool.and_eq_true] at hc
        exact hc.1.2
      simp only [List.map_cons, List.flatten_cons, removeQuotesL, List.filter_append,
        goQuoteChar_plain hc, List.filter_cons, hcq]
      exact congrArg (c :: ·) (ih hcs)

theorem removeQuotes_goQuote_plain {s : String} (h : s.data.all isPlainChar = true) :
    removeQuotes (goQuote s) = s := by
  cases s with
  | mk cs =>
      show String.mk (removeQuotesL (goQuoteL cs)) = String.mk cs
      simp only [goQuoteL, removeQuotesL, List.filter_cons, List.filter_append,
        show (('"' : Char) != '"') = false from rfl, Bool.false_eq_true, if_false]
      show String.mk (removeQuotesL ((cs.map goQuoteChar).flatten) ++ []) = String.mk cs
      rw [List.append_nil, removeQuotesL_flatten_plain h]

/-- Round trip of one known plain element through rendering and
quote-stripping. -/
theorem removeQuotes_render_plain {s : String} (h : s.data.all isPlainChar = true) :
    removeQuotes (TfString.value s).render = s :=
  removeQuotes_goQuote_plain h

theorem getLast?_cons_eq {α : Type} (a : α) (l : List α) :
    (a :: l).getLast? =
      match l.getLast? with
      | some b => some b
      | none => some a := by
  induction l generalizing a with
  | nil => rfl
  | cons x xs ih =>
      rw [List.getLast?_cons_cons, ih x]
      cases hx : xs.getLast? <;> simp

/-- The last entry of the list whose `cloud_account_id` equals `key`. -/
def lastMatch (key : String) : List AWSAccountEntry → Option AWSAccountEntry
  | [] => none
  | a :: rest =>
      match lastMatch key rest with
      | some b => some b
      | none => if a.cloud_account_id == key then some a else none

theorem lastMatch_eq_filter_getLast (key : String) (l : List AWSAccountEntry) :
    lastMatch key l = (l.filter (fun e => e.cloud_account_id == key)).getLast? := by
  induction l with
  | nil => rfl
  | cons a rest ih =>
      cases hm : a.cloud_account_id == key with
      | true =>
          simp only [lastMatch, List.filter_cons, hm, if_true, ih, getLast?_cons_eq]
          cases hx : (rest.filter (fun e => e.cloud_account_id == key)).getLast? <;> rfl
      | false =>
          simp only [lastMatch, List.filter_cons, hm, Bool.false_eq_true, if_false, ih]
          cases hx : (rest.filter (fun e => e.cloud_account_id == key)).getLast? <;> rfl

theorem applyEntry_applyEntry (d : AWSAccountResourceModel) (a b : AWSAccountEntry) :
    AWSAccountResource.applyEntry (AWSAccountResource.applyEntry d a) b =
      AWSAccountResource.applyEntry d b := rfl

/-- The Read loop of `streamsec_aws_account` ends in the state rebuilt from
the last matching entry, or unchanged when nothing matches. -/
theorem readLoop_eq_lastMatch (l : List AWSAccountEntry) (d : AWSAccountResourceModel)
    (found : Bool) :
    AWSAccountResource.readLoop l d found =
      match lastMatch d.cloud_account_id.valueString l with
      | some a => (AWSAccountResource.applyEntry d a, true)
      | none => (d, found) := by
  induction l generalizing d found with
  | nil => rfl
  | cons a rest ih =>
      cases hm : a.cloud_account_id == d.cloud_account_id.valueString with
      | true =>
          simp only [AWSAccountResource.readLoop, lastMatch, hm, if_true]
          rw [ih (AWSAccountResource.applyEntry d a) true]
          have hkey : (AWSAccountResource.applyEntry d a).cloud_account_id
              = d.cloud_account_id := rfl
          rw [hkey]
          cases hlm : lastMatch d.cloud_account_id.valueString rest with
          | some b => simp only [applyEntry_applyEntry]
          | none => simp only []
      | false =>
          simp only [AWSAccountResource.readLoop, lastMatch, hm, Bool.false_eq_true, if_false]
          rw [ih d found]
          cases hlm : lastMatch d.cloud_account_id.valueString rest with
          | some b => rfl
          | none => rfl

theorem lastMatch_none_of_no_match {key : String} {l : List AWSAccountEntry}
    (h : ∀ a ∈ l, (a.cloud_account_id == key) = false) : lastMatch key l = none := by
  induction l with
  | nil => rfl
  | cons a rest ih =>
      have ha := h a (List.mem_cons_self a rest)
      have hrest := ih (fun b hb => h b (List.mem_cons_of_mem a hb))
      simp only [lastMatch, hrest, ha, Bool.false_eq_true, if_false]

/-- The EKS Read loop panics at its first entry when that entry, like every
entry of a faithful response, carries no `eks_arn`. -/
theorem eksReadLoop_absent_panics (a : KubernetesEntry) (rest : List KubernetesEntry)
    (d : EKSClusterResourceModel) (found : Bool) (h : a.eks_arn = none) :
    EKSClusterResource.readLoop (a :: rest) d found = .panics := by
  simp [EKSClusterResource.readLoop, h]

theorem azureAckCreateLoop_no_match {l : List AzureAckAccountEntry}
    {d : AzureTenantAckResourceModel} {found : Bool}
    (h : ∀ a ∈ l, (a.cloud_account_id == d.cloud_account_id.valueString) = false) :
    AzureTenantAckResource.createLoop l d found = (d, found) := by
  induction l with
  | nil => rfl
  | cons a rest ih =>
      have ha := h a (List.mem_cons_self a rest)
      simp only [AzureTenantAckResource.createLoop, ha, Bool.false_eq_true, if_false]
      exact ih (fun b hb => h b (List.mem_cons_of_mem a hb))

theorem respAckReadLoop_no_match (l : List RespAckReadEntry)
    (d : AWSResponseAckResourceModel) (found : Bool)
    (h : ∀ a ∈ l, (a.cloud_account_id == d.cloud_account_id.valueString) = false) :
    AWSResponseAckResource.readLoop l d found = .done d found := by
  induction l with
  | nil => rfl
  | cons a rest ih =>
      have ha := h a (List.mem_cons_self a rest)
      simp only [AWSResponseAckResource.readLoop, ha, Bool.false_eq_true, if_false]
      exact ih (fun b hb => h b (List.mem_cons_of_mem a hb))

theorem awsAccountAckReadLoop_no_match (l : List AWSAccountAckEntry)
    (d : AWSAccountAckResourceModel) (found : Bool)
    (h : ∀ a ∈ l, (a.cloud_account_id == d.cloud_account_id.valueString) = false) :
    AWSAccountAckResource.readLoop l d found = (d, found) := by
  induction l with
  | nil => rfl
  | cons a rest ih =>
      have ha := h a (List.mem_cons_self a rest)
      simp only [AWSAccountAckResource.readLoop, ha, Bool.false_eq_true, if_false]
      exact ih (fun b hb => h b (List.mem_cons_of_mem a hb))

/-- Round trip of a list of known plain string elements through
`ConvertToStringSlice` and `ConvertStringsArrayToTypesList`. -/
theorem convertRoundTrip_plain {xs : List String}
    (h : ∀ s ∈ xs, s.data.all isPlainChar = true) :
    ConvertToStringSlice (ConvertStringsArrayToTypesList xs) = xs := by
  induction xs with
  | nil => rfl
  | cons s rest ih =>
      have hs := h s (List.mem_cons_self s rest)
      have hrest := ih (fun t ht => h t (List.mem_cons_of_mem s ht))
      simp only [ConvertStringsArrayToTypesList, List.map_cons, ConvertToStringSlice]
        at hrest ⊢
      rw [removeQuotes_render_plain hs, hrest]

/-- Round trip of a list of known plain elements through
`ConvertToStringSlice` and `ConvertInterfaceToTypesList`. -/
theorem convertInterface_slice_plain {l : List TfString}
    (h : ∀ e ∈ l, ∃ s, e = TfString.value s ∧ s.data.all isPlainChar = true) :
    ConvertInterfaceToTypesList (ConvertToStringSlice l) = l := by
  induction l with
  | nil => rfl
  | cons e rest ih =>
      obtain ⟨s, hes, hplain⟩ := h e (List.mem_cons_self e rest)
      have hrest := ih (fun t ht => h t (List.mem_cons_of_mem e ht))
      subst hes
      simp only [ConvertToStringSlice, List.map_cons, ConvertInterfaceToTypesList]
        at hrest ⊢
      rw [removeQuotes_render_plain hplain, hrest]

theorem azureDSApplyEntry_key (d : AzureTenantDataSourceModel) (a : AzureDSEntry) :
    (AzureTenantDataSource.applyEntry d a).cloud_account_id = d.cloud_account_id := rfl

/-- The data-source loop leaves everything unchanged when no entry matches. -/
theorem azureDSLoop_no_match (l : List AzureDSEntry) (d : AzureTenantDataSourceModel)
    (found : Bool)
    (h : ∀ a ∈ l, a.cloud_account_id ≠ some d.cloud_account_id.valueString) :
    AzureTenantDataSource.readLoop l d found = .done d found := by
  induction l with
  | nil => rfl
  | cons a rest ih =>
      have ha := h a (List.mem_cons_self a rest)
      have hrest := ih (fun b hb => h b (List.mem_cons_of_mem a hb))
      cases hk : a.cloud_account_id with
      | some cid =>
          have hcid : (cid == d.cloud_account_id.valueString) = false := by
            rw [beq_eq_false_iff_ne]
            intro he
            exact ha (by rw [hk, he])
          simp only [AzureTenantDataSource.readLoop, hk, hcid, Bool.false_eq_true,
            if_false]
          exact hrest
      | none =>
          simp only [AzureTenantDataSource.readLoop, hk]
          exact hrest

/-- A matching entry in status DELETING makes the data-source loop abort. -/
theorem azureDSLoop_deleting (l : List AzureDSEntry) (d : AzureTenantDataSourceModel)
    (found : Bool)
    (h : ∃ a ∈ l, a.cloud_account_id = some d.cloud_account_id.valueString ∧
      a.status = "DELETING") :
    AzureTenantDataSource.readLoop l d found = .deleting := by
  induction l generalizing d found with
  | nil => simp at h
  | cons a rest ih =>
      obtain ⟨b, hb, hbk, hbs⟩ := h
      cases hk : a.cloud_account_id with
      | some cid =>
          simp only [AzureTenantDataSource.readLoop, hk]
          by_cases hc : (cid == d.cloud_account_id.valueString) = true
          · rw [if_pos hc]
            by_cases hs : (a.status == "DELETING") = true
            · rw [if_pos hs]
            · rw [if_neg hs]
              rcases List.mem_cons.mp hb with hba | hbr
              · exfalso
                subst hba
                exact hs (by rw [hbs]; exact beq_self_eq_true _)
              · exact ih (AzureTenantDataSource.applyEntry d a) true
                  ⟨b, hbr, by rw [azureDSApplyEntry_key]; exact hbk, hbs⟩
          · rw [if_neg hc]
            rcases List.mem_cons.mp hb with hba | hbr
            · exfalso
              subst hba
              rw [hk] at hbk
              have hcid : cid = d.cloud_account_id.valueString := Option.some.inj hbk
              exact hc (by rw [hcid]; exact beq_self_eq_true _)
            · exact ih d found ⟨b, hbr, hbk, hbs⟩
      | none =>
          simp only [AzureTenantDataSource.readLoop, hk]
          rcases List.mem_cons.mp hb with hba | hbr
          · exfalso
            subst hba
            rw [hk] at hbk
            exact Option.noConfusion hbk
          · exact ih d found ⟨b, hbr, hbk, hbs⟩

/-- When the data-source loop completes, no matching entry was in status
DELETING, and the flag is set only from the initial flag or a match. -/
theorem azureDSLoop_done (l : List AzureDSEntry) (d : AzureTenantDataSourceModel)
    (found : Bool) {d2 : AzureTenantDataSourceModel} {f : Bool}
    (h : AzureTenantDataSource.readLoop l d found = .done d2 f) :
    (∀ a ∈ l, a.cloud_account_id = some d.cloud_account_id.valueString →
      a.status ≠ "DELETING") ∧
    (f = true → found = true ∨
      ∃ a ∈ l, a.cloud_account_id = some d.cloud_account_id.valueString) := by
  induction l generalizing d found with
  | nil =>
      simp only [AzureTenantDataSource.readLoop, AzureTenantDataSource.LoopOut.done.injEq]
        at h
      refine ⟨by simp, fun hf => Or.inl (h.2 ▸ hf)⟩
  | cons a rest ih =>
      cases hk : a.cloud_account_id with
      | some cid =>
          simp only [AzureTenantDataSource.readLoop, hk] at h
          by_cases hc : (cid == d.cloud_account_id.valueString) = true
          · rw [if_pos hc] at h
            by_cases hs : (a.status == "DELETING") = true
            · rw [if_pos hs] at h
              exact absurd h (by simp)
            · rw [if_neg hs] at h
              have ihres := ih (AzureTenantDataSource.applyEntry d a) true h
              rw [azureDSApplyEntry_key] at ihres
              refine ⟨?_, fun _ => Or.inr ⟨a, List.mem_cons_self a rest, ?_⟩⟩
              · intro b hb hbk
                rcases List.mem_cons.mp hb with hba | hbr
                · subst hba
                  intro hbs
                  exact hs (by simp [hbs])
                · exact ihres.1 b hbr hbk
              · rw [hk]
                congr 1
                exact eq_of_beq hc
          · rw [if_neg hc] at h
            have ihres := ih d found h
            refine ⟨?_, fun hf => ?_⟩
            · intro b hb hbk
              rcases List.mem_cons.mp hb with hba | hbr
              · subst hba
                rw [hk] at hbk
                exact absurd (by simpa using hbk) (by simpa using hc)
              · exact ihres.1 b hbr hbk
            · rcases ihres.2 hf with hfound | ⟨b, hbr, hbk⟩
              · exact Or.inl hfound
              · exact Or.inr ⟨b, List.mem_cons_of_mem a hbr, hbk⟩
      | none =>
          simp only [AzureTenantDataSource.readLoop, hk] at h
          have ihres := ih d found h
          refine ⟨?_, fun hf => ?_⟩
          · intro b hb hbk
            rcases List.mem_cons.mp hb with hba | hbr
            · subst hba
              rw [hk] at hbk
              exact absurd hbk (by simp)
            · exact ihres.1 b hbr hbk
          · rcases ihres.2 hf with hfound | ⟨b, hbr, hbk⟩
            · exact Or.inl hfound
            · exact Or.inr ⟨b, List.mem_cons_of_mem a hbr, hbk⟩

/-! ## Concrete sample inputs used by witnesses and counterexamples -/

/-- A sample prior state / plan for `streamsec_aws_account`. -/
def awsSample : AWSAccountResourceModel :=
  { id := .value "acc-1", display_name := .value "prod",
    cloud_account_id := .value "123456789012",
    cloud_regions := [.value "us-east-1"], stack_region := .value "us-east-1",
    template_url := .value "https://template", external_id := .value "ext-1",
    streamsec_collection_token := .value "col-tok",
    account_auth_token := .value "auth-tok" }

/-- A sample backend `accounts` entry matching `awsSample`. -/
def awsSampleEntry : AWSAccountEntry :=
  { id := "acc-1", account_type := "AWS", cloud_account_id := "123456789012",
    display_name := "prod", cloud_regions := ["us-east-1"],
    stack_region := "us-east-1", template_url := "https://template",
    external_id := "ext-1", lightlytics_collection_token := "col-tok",
    account_auth_token := "auth-tok" }

/-- A second matching entry with different fields, after `awsSampleEntry` in
list order. -/
def awsSampleEntry2 : AWSAccountEntry :=
  { id := "acc-2", account_type := "AWS", cloud_account_id := "123456789012",
    display_name := "prod-renamed", cloud_regions := ["eu-west-1"],
    stack_region := "eu-west-1", template_url := "https://template2",
    external_id := "ext-2", lightlytics_collection_token := "col-tok2",
    account_auth_token := "auth-tok2" }

/-- A sample state for `streamsec_azure_tenant_ack`. -/
def azureAckSample : AzureTenantAckResourceModel :=
  { id := .value "acc-9", cloud_account_id := .value "0f1a2b3c-0000-0000-0000-000000000000",
    client_id := .value "11111111-0000-0000-0000-000000000000",
    client_secret := .value "s3cret",
    subscriptions := [.value "22222222-0000-0000-0000-000000000000"],
    account_token := .value "az-tok" }

/-- A sample backend entry matching `azureAckSample`. -/
def azureAckSampleEntry : AzureAckAccountEntry :=
  { id := "acc-9", cloud_account_id := "0f1a2b3c-0000-0000-0000-000000000000",
    account_token := "az-tok" }

/-- A sample prior state for `streamsec_aws_response_ack`. -/
def respAckSample : AWSResponseAckResourceModel :=
  { id := .value "acc-5", cloud_account_id := .value "123456789012",
    region := .value "us-east-1", streamsec_collection_token := .value "tok-5",
    role_arn := .value "arn:aws:iam::123456789012:role/remediation",
    runbook_list := [.value "rb-1"], runbook_role_list := [.value "rbr-1"],
    policy_to_role_map := [("p1", .value "r1")], external_id := .value "ext-5" }

/-- A sample configuration for the `streamsec_azure_tenant` data source. -/
def azureDSSample : AzureTenantDataSourceModel :=
  { id := .null, cloud_account_id := .value "0f1a2b3c-0000-0000-0000-000000000000",
    display_name := .null, template_url := .null, account_token := .null }

/-- A matching backend entry for `azureDSSample` in status DELETING. -/
def azureDSDeletingEntry : AzureDSEntry :=
  { id := "acc-7", cloud_account_id := some "0f1a2b3c-0000-0000-0000-000000000000",
    display_name := "tenant", template_url := "https://t", account_token := "tok-7",
    status := "DELETING" }

/-! ## The claims -/

/-- C5: `AWSAccountResource.Create` maps the `createAccount` response into the
flat state model field by field — `id` from `_id`, `template_url`,
`external_id`, `streamsec_collection_token` from `lightlytics_collection_token`,
`account_auth_token` — and keeps every plan-supplied field (`display_name`,
`cloud_account_id`, `cloud_regions`, `stack_region`) unchanged. -/
theorem claim5_create_field_mapping (p : AWSAccountResourceModel)
    (r : CreateAccountResponse) :
    ∃ s, (AWSAccountResource.create p (.ok r)).state = .set s ∧
      s.id = .value r.id ∧
      s.template_url = .value r.template_url ∧
      s.external_id = .value r.external_id ∧
      s.streamsec_collection_token = .value r.lightlytics_collection_token ∧
      s.account_auth_token = .value r.account_auth_token ∧
      s.display_name = p.display_name ∧
      s.cloud_account_id = p.cloud_account_id ∧
      s.cloud_regions = p.cloud_regions ∧
      s.stack_region = p.stack_region :=
  ⟨AWSAccountResource.createdModel p r, rfl, rfl, rfl, rfl, rfl, rfl, rfl, rfl, rfl, rfl⟩

/-- C6: `AWSAccountResource.Update` updates in place: with an unchanged
display name and element-wise equal region lists it issues no remote request
and writes the plan; otherwise it issues exactly one `updateAccount` mutation
carrying the plan's display name and (quote-stripped) region renderings; every
state it writes carries the plan's `id`. -/
theorem claim6_update_in_place (plan state : AWSAccountResourceModel)
    (res : Except GoError Unit) :
    (plan.display_name = state.display_name ∧
        EqualListValues plan.cloud_regions state.cloud_regions = true →
      AWSAccountResource.update plan state res =
        { diags := [], state := .set plan, requests := [] }) ∧
    (¬ (plan.display_name = state.display_name ∧
        EqualListValues plan.cloud_regions state.cloud_regions = true) →
      AWSAccountResource.update plan state (.ok ()) =
        { diags := [], state := .set plan,
          requests := [Request.updateAccount plan.id.valueString
            plan.display_name.valueString
            (ConvertToStringSlice plan.cloud_regions)] }) ∧
    (∀ s2, (AWSAccountResource.update plan state res).state = .set s2 →
      s2.id = plan.id) := by
  have hcond : (plan.display_name != state.display_name ||
      !(EqualListValues plan.cloud_regions state.cloud_regions)) = false ↔
      (plan.display_name = state.display_name ∧
        EqualListValues plan.cloud_regions state.cloud_regions = true) := by
    rw [Bool.or_eq_false_iff]
    constructor
    · intro ⟨h1, h2⟩
      exact ⟨by simpa using h1, by simpa using h2⟩
    · intro ⟨h1, h2⟩
      exact ⟨by simpa using h1, by simpa using h2⟩
  refine ⟨?_, ?_, ?_⟩
  · intro h
    have hc := hcond.mpr h
    simp only [AWSAccountResource.update, hc, Bool.false_eq_true, if_false]
  · intro h
    have hc : (plan.display_name != state.display_name ||
        !(EqualListValues plan.cloud_regions state.cloud_regions)) = true := by
      cases hcc : (plan.display_name != state.display_name ||
          !(EqualListValues plan.cloud_regions state.cloud_regions)) with
      | false => exact absurd (hcond.mp hcc) h
      | true => rfl
    simp only [AWSAccountResource.update, hc, if_true]
  · intro s2 hset
    cases hcc : (plan.display_name != state.display_name ||
        !(EqualListValues plan.cloud_regions state.cloud_regions)) with
    | false =>
        simp only [AWSAccountResource.update, hcc, Bool.false_eq_true, if_false,
          StateAction.set.injEq] at hset
        rw [← hset]
    | true =>
        cases res with
        | error e =>
            simp only [AWSAccountResource.update, hcc, if_true] at hset
            exact absurd hset (by simp)
        | ok u =>
            simp only [AWSAccountResource.update, hcc, if_true,
              StateAction.set.injEq] at hset
            rw [← hset]

/-- C6 witness: an unchanged plan issues no remote request. -/
theorem claim6_update_in_place_witness :
    AWSAccountResource.update awsSample awsSample (.ok ()) =
      { diags := [], state := .set awsSample, requests := [] } :=
  (claim6_update_in_place awsSample awsSample (.ok ())).1 ⟨rfl, by decide⟩

/-- C7: every resource and data-source model of the provider is a flat record
whose fields are strings, string-typed lists, or string-typed maps. -/
theorem claim7_models_flat :
    allProviderModelFields.all
      (fun m => m.2.all (fun f => f.2.isFlatStringlike)) = true := by
  decide

/-- C9: last match wins — when the backend's `accounts` list holds two or more
entries matching the prior state's `cloud_account_id`, the state written by
`AWSAccountResource.Read` is rebuilt from the last matching entry in list
order. -/
theorem claim9_last_match_wins (s : AWSAccountResourceModel)
    (l : List AWSAccountEntry) (a : AWSAccountEntry)
    (h2 : 2 ≤ (l.filter
      (fun e => e.cloud_account_id == s.cloud_account_id.valueString)).length)
    (hl : (l.filter
      (fun e => e.cloud_account_id == s.cloud_account_id.valueString)).getLast?
        = some a) :
    (AWSAccountResource.read s (.ok l)).state =
      .set (AWSAccountResource.applyEntry s a) := by
  have hlm : lastMatch s.cloud_account_id.valueString l = some a := by
    rw [lastMatch_eq_filter_getLast]
    exact hl
  simp only [AWSAccountResource.read, readLoop_eq_lastMatch, hlm, Bool.not_true,
    Bool.false_eq_true, if_false]

/-- C9 witness: with two matching entries the state comes from the second. -/
theorem claim9_last_match_wins_witness :
    (AWSAccountResource.read awsSample (.ok [awsSampleEntry, awsSampleEntry2])).state =
      .set (AWSAccountResource.applyEntry awsSample awsSampleEntry2) :=
  claim9_last_match_wins awsSample [awsSampleEntry, awsSampleEntry2] awsSampleEntry2
    (by decide) (by decide)

/-- C10: the `streamsec_azure_tenant` data source errors, writing no state,
whenever a matching account is in status DELETING, and its success path is
reached only when a matching account exists and no matching account is in
status DELETING. -/
theorem claim10_deleting_is_error (c : AzureTenantDataSourceModel)
    (l : List AzureDSEntry) :
    ((∃ a ∈ l, a.cloud_account_id = some c.cloud_account_id.valueString ∧
        a.status = "DELETING") →
      (AzureTenantDataSource.read c (.ok l)).diags ≠ [] ∧
      (AzureTenantDataSource.read c (.ok l)).state = .none) ∧
    (∀ d, (AzureTenantDataSource.read c (.ok l)).state = .set d →
      (∃ a ∈ l, a.cloud_account_id = some c.cloud_account_id.valueString) ∧
      (∀ a ∈ l, a.cloud_account_id = some c.cloud_account_id.valueString →
        a.status ≠ "DELETING")) := by
  constructor
  · intro h
    have hloop := azureDSLoop_deleting l c false h
    refine ⟨?_, ?_⟩ <;> simp [AzureTenantDataSource.read, hloop]
  · intro d hset
    cases hloop : AzureTenantDataSource.readLoop l c false with
    | deleting =>
        simp only [AzureTenantDataSource.read, hloop] at hset
        exact absurd hset (by simp)
    | done data f =>
        have hd := azureDSLoop_done l c false hloop
        cases f with
        | false =>
            simp only [AzureTenantDataSource.read, hloop, Bool.not_false, if_true]
              at hset
            exact absurd hset (by simp)
        | true =>
            rcases hd.2 rfl with hfound | hex
            · exact absurd hfound (by simp)
            · exact ⟨hex, hd.1⟩

/-- C1 counterexample: `AWSResponseAckResource.Read` with a prior state whose
account is absent from the backend ends by removing the resource from state,
with an empty diagnostics list — not by adding an error diagnostic. -/
theorem claim1_counterexample :
    AWSResponseAckResource.read respAckSample (.ok []) =
      some { diags := [], state := .remove, requests := [.accountsQuery] } := by
  rfl

/-- C1 amended: a missing account is surfaced as an error diagnostic by the
Reads of `streamsec_aws_account` and the `streamsec_azure_tenant` data
source; `streamsec_eks_cluster`'s Read adds the not-found diagnostic only on
an empty `kubernetes` list — on any non-empty faithful response it panics on
the nil `eks_arn` type assertion, its query never selecting that field — and
the acknowledgement-style Reads (`streamsec_aws_response_ack`,
`streamsec_aws_account_ack`) instead remove the resource from state without
any diagnostic. -/
theorem claim1_missing_resource_amended :
    (∀ (s : AWSAccountResourceModel) (l : List AWSAccountEntry),
      (∀ a ∈ l, (a.cloud_account_id == s.cloud_account_id.valueString) = false) →
      (AWSAccountResource.read s (.ok l)).diags ≠ [] ∧
      (AWSAccountResource.read s (.ok l)).state = .none) ∧
    (∀ s : EKSClusterResourceModel, ∃ r,
      EKSClusterResource.read s (.ok []) = some r ∧
      r.diags ≠ [] ∧ r.state = .none) ∧
    (∀ (s : EKSClusterResourceModel) (a : KubernetesEntry)
        (l : List KubernetesEntry), a.eks_arn = none →
      EKSClusterResource.read s (.ok (a :: l)) = none) ∧
    (∀ (c : AzureTenantDataSourceModel) (l : List AzureDSEntry),
      (∀ a ∈ l, a.cloud_account_id ≠ some c.cloud_account_id.valueString) →
      (AzureTenantDataSource.read c (.ok l)).diags ≠ [] ∧
      (AzureTenantDataSource.read c (.ok l)).state = .none) ∧
    (∀ (s : AWSResponseAckResourceModel) (l : List RespAckReadEntry),
      (∀ a ∈ l, (a.cloud_account_id == s.cloud_account_id.valueString) = false) →
      AWSResponseAckResource.read s (.ok l) =
        some { diags := [], state := .remove, requests := [.accountsQuery] }) ∧
    (∀ (s : AWSAccountAckResourceModel) (l : List AWSAccountAckEntry),
      (∀ a ∈ l, (a.cloud_account_id == s.cloud_account_id.valueString) = false) →
      AWSAccountAckResource.read s (.ok l) =
        { diags := [], state := .remove, requests := [.accountsQuery] }) := by
  refine ⟨?_, ?_, ?_, ?_, ?_, ?_⟩
  · intro s l h
    have hlm : lastMatch s.cloud_account_id.valueString l = none :=
      lastMatch_none_of_no_match h
    refine ⟨?_, ?_⟩ <;>
      simp [AWSAccountResource.read, readLoop_eq_lastMatch, hlm]
  · intro s
    exact ⟨_, rfl, by simp, rfl⟩
  · intro s a l h
    have hloop := eksReadLoop_absent_panics a l s false h
    simp [EKSClusterResource.read, hloop]
  · intro c l h
    have hloop := azureDSLoop_no_match l c false h
    refine ⟨?_, ?_⟩ <;> simp [AzureTenantDataSource.read, hloop]
  · intro s l h
    have hloop := respAckReadLoop_no_match l s false h
    simp [AWSResponseAckResource.read, hloop]
  · intro s l h
    have hloop := awsAccountAckReadLoop_no_match l s false h
    simp [AWSAccountAckResource.read, hloop]

/-- C1 witness: `streamsec_aws_account`'s Read errors without writing state
when its account is gone. -/
theorem claim1_missing_resource_amended_witness :
    (AWSAccountResource.read awsSample (.ok [])).diags ≠ [] ∧
    (AWSAccountResource.read awsSample (.ok [])).state = .none :=
  claim1_missing_resource_amended.1 awsSample [] (by simp)

/-- C2 counterexample: `AzureTenantAckResource.Delete` issues zero remote
calls, and its Create issues two on the success path — not exactly one each. -/
theorem claim2_counterexample :
    (AzureTenantAckResource.delete azureAckSample).requests.length = 0 ∧
    (AzureTenantAckResource.create "app.example" azureAckSample
        (.ok [azureAckSampleEntry]) (.ok ⟨200, "200 OK"⟩)).requests.length = 2 := by
  constructor
  · rfl
  · decide

/-- C2 amended: the handlers issue zero, one or two blocking remote calls per
invocation: one for each `streamsec_aws_account` Create/Read/Delete, one or
zero for its Update (zero when nothing changed), zero for
`streamsec_azure_tenant_ack` Delete and `streamsec_aws_response_ack` Update,
at most two for `streamsec_azure_tenant_ack` Create, and exactly one for
`streamsec_aws_response_ack` Delete. -/
theorem claim2_request_counts_amended :
    (∀ p r, (AWSAccountResource.create p r).requests.length = 1) ∧
    (∀ s r, (AWSAccountResource.read s r).requests.length = 1) ∧
    (∀ p s r, (AWSAccountResource.update p s r).requests.length =
      (if (p.display_name != s.display_name ||
          !(EqualListValues p.cloud_regions s.cloud_regions)) then 1 else 0)) ∧
    (∀ s r, (AWSAccountResource.delete s r).requests.length = 1) ∧
    (∀ s, (AzureTenantAckResource.delete s).requests = []) ∧
    (∀ p s, (AWSResponseAckResource.update p s).requests = []) ∧
    (∀ h p ar br, 1 ≤ (AzureTenantAckResource.create h p ar br).requests.length ∧
      (AzureTenantAckResource.create h p ar br).requests.length ≤ 2) ∧
    (∀ h s r, (AWSResponseAckResource.delete h s r).requests.length = 1) := by
  refine ⟨?_, ?_, ?_, ?_, fun s => rfl, fun p s => rfl, ?_, ?_⟩
  · intro p r
    cases r <;> rfl
  · intro s r
    cases r with
    | error e => rfl
    | ok accounts =>
        simp only [AWSAccountResource.read]
        cases (AWSAccountResource.readLoop accounts s false).2 <;> simp
  · intro p s r
    cases hc : (p.display_name != s.display_name ||
        !(EqualListValues p.cloud_regions s.cloud_regions)) with
    | true =>
        simp only [AWSAccountResource.update, hc, if_true]
        cases r <;> rfl
    | false =>
        simp only [AWSAccountResource.update, hc, Bool.false_eq_true, if_false]
        rfl
  · intro s r
    cases r <;> rfl
  · intro h p ar br
    cases ar with
    | error e => exact ⟨by simp [AzureTenantAckResource.create], by
        simp [AzureTenantAckResource.create]⟩
    | ok accounts =>
        simp only [AzureTenantAckResource.create]
        cases (AzureTenantAckResource.createLoop accounts p false).2 with
        | false => simp
        | true =>
            cases br with
            | error e => simp
            | ok ack =>
                by_cases h200 : (ack.statusCode != 200) = true <;> simp [h200]
  · intro h s r
    cases r with
    | error e => rfl
    | ok ack =>
        simp only [AWSResponseAckResource.delete]
        by_cases h200 : (ack.statusCode != 200) = true <;> simp [h200]

/-- C4: atomicity on error and no retry — whenever a remote request of an
embedded handler returns an error (or an acknowledgement call returns a
non-200 status), the handler adds a diagnostic and returns without writing
the Terraform state and without issuing the failed request again (the request
lists stay at their single-issue lengths). -/
theorem claim4_failed_request_terminal :
    (∀ p e, (AWSAccountResource.create p (.error e)).diags ≠ [] ∧
      (AWSAccountResource.create p (.error e)).state = .none ∧
      (AWSAccountResource.create p (.error e)).requests.length = 1) ∧
    (∀ s e, (AWSAccountResource.read s (.error e)).diags ≠ [] ∧
      (AWSAccountResource.read s (.error e)).state = .none ∧
      (AWSAccountResource.read s (.error e)).requests.length = 1) ∧
    (∀ p s e, (AWSAccountResource.update p s (.error e)).requests ≠ [] →
      (AWSAccountResource.update p s (.error e)).diags ≠ [] ∧
      (AWSAccountResource.update p s (.error e)).state = .none ∧
      (AWSAccountResource.update p s (.error e)).requests.length = 1) ∧
    (∀ s e, (AWSAccountResource.delete s (.error e)).diags ≠ [] ∧
      (AWSAccountResource.delete s (.error e)).state = .none ∧
      (AWSAccountResource.delete s (.error e)).requests.length = 1) ∧
    (∀ p e, (EKSClusterResource.create p (.error e)).diags ≠ [] ∧
      (EKSClusterResource.create p (.error e)).state = .none ∧
      (EKSClusterResource.create p (.error e)).requests.length = 1) ∧
    (∀ s e, ∃ r, EKSClusterResource.read s (.error e) = some r ∧
      r.diags ≠ [] ∧ r.state = .none ∧ r.requests.length = 1) ∧
    (∀ h p e ack, (AzureTenantAckResource.create h p (.error e) ack).diags ≠ [] ∧
      (AzureTenantAckResource.create h p (.error e) ack).state = .none ∧
      (AzureTenantAckResource.create h p (.error e) ack).requests.length = 1) ∧
    (∀ h p l e, (AzureTenantAckResource.create h p (.ok l) (.error e)).diags ≠ [] ∧
      (AzureTenantAckResource.create h p (.ok l) (.error e)).state = .none ∧
      (AzureTenantAckResource.create h p (.ok l) (.error e)).requests.length ≤ 2) ∧
    (∀ h p l ack, ack.statusCode ≠ 200 →
      (AzureTenantAckResource.create h p (.ok l) (.ok ack)).diags ≠ [] ∧
      (AzureTenantAckResource.create h p (.ok l) (.ok ack)).state = .none ∧
      (AzureTenantAckResource.create h p (.ok l) (.ok ack)).requests.length ≤ 2) ∧
    (∀ p s e, (AzureTenantAckResource.update p s (.error e)).requests ≠ [] →
      (AzureTenantAckResource.update p s (.error e)).diags ≠ [] ∧
      (AzureTenantAckResource.update p s (.error e)).state = .none) ∧
    (∀ h p e ack r, AWSResponseAckResource.create h p (.error e) ack = some r →
      r.diags ≠ [] ∧ r.state = .none ∧ r.requests.length = 1) ∧
    (∀ h p l e r, AWSResponseAckResource.create h p (.ok l) (.error e) = some r →
      r.diags ≠ [] ∧ r.state = .none ∧ r.requests.length ≤ 2) ∧
    (∀ h p l ack r, ack.statusCode ≠ 200 →
      AWSResponseAckResource.create h p (.ok l) (.ok ack) = some r →
      r.diags ≠ [] ∧ r.state = .none ∧ r.requests.length ≤ 2) ∧
    (∀ h s e, (AWSResponseAckResource.delete h s (.error e)).diags ≠ [] ∧
      (AWSResponseAckResource.delete h s (.error e)).state = .none ∧
      (AWSResponseAckResource.delete h s (.error e)).requests.length = 1) ∧
    (∀ h s ack, ack.statusCode ≠ 200 →
      (AWSResponseAckResource.delete h s (.ok ack)).diags ≠ [] ∧
      (AWSResponseAckResource.delete h s (.ok ack)).state = .none ∧
      (AWSResponseAckResource.delete h s (.ok ack)).requests.length = 1) ∧
    (∀ s e r, AWSResponseAckResource.read s (.error e) = some r →
      r.diags ≠ [] ∧ r.state = .none) ∧
    (∀ c e, (AzureTenantDataSource.read c (.error e)).diags ≠ [] ∧
      (AzureTenantDataSource.read c (.error e)).state = .none) ∧
    (∀ s e, (AWSAccountAckResource.read s (.error e)).diags ≠ [] ∧
      (AWSAccountAckResource.read s (.error e)).state = .none) := by
  refine ⟨fun p e => ⟨by simp [AWSAccountResource.create], rfl, rfl⟩,
    fun s e => ⟨by simp [AWSAccountResource.read], rfl, rfl⟩,
    ?_,
    fun s e => ⟨by simp [AWSAccountResource.delete], rfl, rfl⟩,
    fun p e => ⟨by simp [EKSClusterResource.create], rfl, rfl⟩,
    fun s e => ⟨_, rfl, by simp, rfl, rfl⟩,
    fun h p e ack => ⟨by simp [AzureTenantAckResource.create], rfl, rfl⟩,
    ?_, ?_, ?_, ?_, ?_, ?_,
    fun h s e => ⟨by simp [AWSResponseAckResource.delete], rfl, rfl⟩,
    ?_, ?_,
    fun c e => ⟨by simp [AzureTenantDataSource.read], rfl⟩,
    fun s e => ⟨by simp [AWSAccountAckResource.read], rfl⟩⟩
  · intro p s e hreq
    cases hc : (p.display_name != s.display_name ||
        !(EqualListValues p.cloud_regions s.cloud_regions)) with
    | false =>
        exfalso
        apply hreq
        simp only [AWSAccountResource.update, hc, Bool.false_eq_true, if_false]
    | true =>
        refine ⟨?_, ?_, ?_⟩ <;>
          simp [AWSAccountResource.update, hc]
  · intro h p l e
    simp only [AzureTenantAckResource.create]
    cases (AzureTenantAckResource.createLoop l p false).2 with
    | false => exact ⟨by simp, rfl, by simp⟩
    | true => exact ⟨by simp, rfl, by simp⟩
  · intro h p l ack h200
    have hb : (ack.statusCode != 200) = true := bne_iff_ne.mpr h200
    simp only [AzureTenantAckResource.create]
    cases (AzureTenantAckResource.createLoop l p false).2 with
    | false => exact ⟨by simp, rfl, by simp⟩
    | true =>
        refine ⟨?_, ?_, ?_⟩ <;> simp [hb]
  · intro p s e hreq
    cases hc : (!(EqualListValues p.subscriptions s.subscriptions) ||
        p.client_id != s.client_id || p.client_secret != s.client_secret) with
    | false =>
        exfalso
        apply hreq
        simp only [AzureTenantAckResource.update, hc, Bool.false_eq_true, if_false]
    | true =>
        refine ⟨?_, ?_⟩ <;> simp [AzureTenantAckResource.update, hc]
  · intro h p e ack r hr
    simp only [AWSResponseAckResource.create, Option.some.injEq] at hr
    subst hr
    exact ⟨by simp, rfl, rfl⟩
  · intro h p l e r hr
    simp only [AWSResponseAckResource.create] at hr
    cases hloop : AWSResponseAckResource.createLoop l p false with
    | ready =>
        simp only [hloop, Option.some.injEq] at hr
        subst hr
        exact ⟨by simp, rfl, by simp⟩
    | panics =>
        simp only [hloop] at hr
        exact absurd hr (by simp)
    | done data found =>
        simp only [hloop] at hr
        cases hfound : found with
        | false =>
            simp only [hfound, Bool.not_false, if_true, Option.some.injEq] at hr
            subst hr
            exact ⟨by simp, rfl, by simp⟩
        | true =>
            simp only [hfound, Bool.not_true, Bool.false_eq_true, if_false,
              Option.some.injEq] at hr
            subst hr
            exact ⟨by simp, rfl, by simp⟩
  · intro h p l ack r h200 hr
    have hb : (ack.statusCode != 200) = true := bne_iff_ne.mpr h200
    simp only [AWSResponseAckResource.create] at hr
    cases hloop : AWSResponseAckResource.createLoop l p false with
    | ready =>
        simp only [hloop, Option.some.injEq] at hr
        subst hr
        exact ⟨by simp, rfl, by simp⟩
    | panics =>
        simp only [hloop] at hr
        exact absurd hr (by simp)
    | done data found =>
        simp only [hloop] at hr
        cases hfound : found with
        | false =>
            simp only [hfound, Bool.not_false, if_true, Option.some.injEq] at hr
            subst hr
            exact ⟨by simp, rfl, by simp⟩
        | true =>
            simp only [hfound, Bool.not_true, Bool.false_eq_true, if_false, hb,
              if_true, Option.some.injEq] at hr
            subst hr
            exact ⟨by simp, rfl, by simp⟩
  · intro h s ack h200
    have hb : (ack.statusCode != 200) = true := bne_iff_ne.mpr h200
    refine ⟨?_, ?_, ?_⟩ <;> simp [AWSResponseAckResource.delete, hb]
  · intro s e r hr
    simp only [AWSResponseAckResource.read, Option.some.injEq] at hr
    subst hr
    exact ⟨by simp, rfl⟩

/-- The renamed plan used by the C4 witness. -/
def awsSampleRenamed : AWSAccountResourceModel :=
  { awsSample with display_name := .value "prod-renamed" }

/-- C4 witness: an Update whose mutation fails adds a diagnostic and leaves
the state unwritten. -/
theorem claim4_failed_request_terminal_witness :
    (AWSAccountResource.update awsSampleRenamed awsSample (.error "boom")).diags ≠ [] ∧
    (AWSAccountResource.update awsSampleRenamed awsSample (.error "boom")).state =
      .none ∧
    (AWSAccountResource.update awsSampleRenamed awsSample
      (.error "boom")).requests.length = 1 :=
  claim4_failed_request_terminal.2.2.1 awsSampleRenamed awsSample "boom" (by decide)

/-- C8 counterexample: an element containing a backslash and no double quote
is not restored by the round trip — the claim's hypothesis (no double quote)
is satisfied, yet the round trip is not the identity, because the `%q`
rendering also escapes the backslash. -/
theorem claim8_counterexample :
    (∀ ch ∈ ("a\\b" : String).data, ch ≠ '"') ∧
    ConvertToStringSlice (ConvertStringsArrayToTypesList ["a\\b"]) ≠ ["a\\b"] := by
  constructor
  · decide
  · decide

/-- C8 amended: `ConvertToStringSlice` removes every double quote from each
element's rendering; the round trip with `ConvertStringsArrayToTypesList` is
the identity on elements made of printable ASCII characters other than the
double quote and the backslash (not merely quote-free elements); and an
element containing a double quote is not restored (the quote is lost). -/
theorem claim8_roundtrip_amended :
    (∀ v : TfString, ∀ ch ∈ (removeQuotes v.render).data, ch ≠ '"') ∧
    (∀ xs : List String, (∀ s ∈ xs, s.data.all isPlainChar = true) →
      ConvertToStringSlice (ConvertStringsArrayToTypesList xs) = xs) ∧
    ConvertToStringSlice (ConvertStringsArrayToTypesList ["a\"b"]) ≠ ["a\"b"] := by
  refine ⟨?_, fun xs h => convertRoundTrip_plain h, by decide⟩
  intro v ch hch
  have hmem : ch ∈ (v.render.data.filter (fun c => c != '"')) := hch
  have := (List.mem_filter.mp hmem).2
  simpa using this

/-- C8 witness: the round trip restores a plain region name. -/
theorem claim8_roundtrip_amended_witness :
    ConvertToStringSlice (ConvertStringsArrayToTypesList ["us-east-1"]) =
      ["us-east-1"] :=
  claim8_roundtrip_amended.2.1 ["us-east-1"] (by decide)

/-- The plan of the C3 counterexample: a `cloud_regions` element containing a
double quote.  The schema of `streamsec_aws_account` puts no validator on
`cloud_regions`, so Create accepts this plan. -/
def c3Plan : AWSAccountResourceModel :=
  { id := .unknown, display_name := .value "prod",
    cloud_account_id := .value "123456789012",
    cloud_regions := [.value "us-east-1\"x"], stack_region := .value "us-east-1",
    template_url := .unknown, external_id := .unknown,
    streamsec_collection_token := .unknown, account_auth_token := .unknown }

/-- The backend response of the C3 counterexample. -/
def c3Resp : CreateAccountResponse :=
  { id := "acc-1", template_url := "https://template", external_id := "ext-1",
    lightlytics_collection_token := "col-tok", account_auth_token := "auth-tok" }

/-- C3 counterexample: after Create of `c3Plan`, a Read against the backend
that faithfully stored what Create sent does not return the state Create
wrote — the quoted region came back mangled by the quote-stripped `%q`
rendering. -/
theorem claim3_counterexample :
    (AWSAccountResource.create c3Plan (.ok c3Resp)).state =
      .set (AWSAccountResource.createdModel c3Plan c3Resp) ∧
    (AWSAccountResource.read (AWSAccountResource.createdModel c3Plan c3Resp)
        (.ok [faithfulAWSEntry c3Plan c3Resp])).state ≠
      .set (AWSAccountResource.createdModel c3Plan c3Resp) := by
  constructor
  · rfl
  · decide

/-- C3 amended: create-then-read returns exactly the state Create wrote for
`streamsec_aws_account` when every `cloud_regions` element is a known value
of printable ASCII characters free of double quotes and backslashes — without
that condition the round trip can differ, as `claim3_counterexample` shows —
while for `streamsec_eks_cluster`, the claim's named instance, the round trip
never completes: against a backend that faithfully answers its Read query
(which does not select `eks_arn`) the Read panics on the nil `eks_arn` type
assertion instead of returning the created fields. -/
theorem claim3_roundtrip_amended :
    (∀ (plan : AWSAccountResourceModel) (r : CreateAccountResponse),
      plan.display_name.isKnownValue = true →
      plan.stack_region.isKnownValue = true →
      (∀ e ∈ plan.cloud_regions, ∃ s, e = TfString.value s ∧
        s.data.all isPlainChar = true) →
      (AWSAccountResource.create plan (.ok r)).state =
          .set (AWSAccountResource.createdModel plan r) ∧
      (AWSAccountResource.read (AWSAccountResource.createdModel plan r)
          (.ok [faithfulAWSEntry plan r])).state =
        .set (AWSAccountResource.createdModel plan r)) ∧
    (∀ (plan : EKSClusterResourceModel) (r : CreateKubernetesResponse),
      (EKSClusterResource.create plan (.ok r)).state =
          .set (EKSClusterResource.createdModel plan r) ∧
      EKSClusterResource.read (EKSClusterResource.createdModel plan r)
          (.ok [faithfulEKSEntry plan r]) = none) := by
  constructor
  swap
  · intro plan r
    exact ⟨rfl, by
      have hloop := eksReadLoop_absent_panics (faithfulEKSEntry plan r) []
        (EKSClusterResource.createdModel plan r) false rfl
      simp [EKSClusterResource.read, hloop]⟩
  · intro plan r hdn hsr hregs
    refine ⟨rfl, ?_⟩
    obtain ⟨pid, pdn, pcid, pregs, psr, ptu, pei, pct, pat⟩ := plan
    cases pdn with
    | null => exact absurd hdn (by simp [TfString.isKnownValue])
    | unknown => exact absurd hdn (by simp [TfString.isKnownValue])
    | value dn =>
        cases psr with
        | null => exact absurd hsr (by simp [TfString.isKnownValue])
        | unknown => exact absurd hsr (by simp [TfString.isKnownValue])
        | value sr =>
            simp only [AWSAccountResource.read, AWSAccountResource.readLoop,
              AWSAccountResource.applyEntry, AWSAccountResource.createdModel,
              faithfulAWSEntry, TfString.valueString, beq_self_eq_true, if_true,
              Bool.not_true, Bool.false_eq_true, if_false]
            rw [convertInterface_slice_plain hregs]

/-- The backend response used by the C3 witness. -/
def awsSampleResp : CreateAccountResponse :=
  { id := "acc-1", template_url := "https://template", external_id := "ext-1",
    lightlytics_collection_token := "col-tok", account_auth_token := "auth-tok" }

/-- C3 witness: the round trip holds for a plain plan of
`streamsec_aws_account`. -/
theorem claim3_roundtrip_amended_witness :
    (AWSAccountResource.read (AWSAccountResource.createdModel awsSample awsSampleResp)
        (.ok [faithfulAWSEntry awsSample awsSampleResp])).state =
      .set (AWSAccountResource.createdModel awsSample awsSampleResp) :=
  (claim3_roundtrip_amended.1 awsSample awsSampleResp (by decide) (by decide)
    (fun e he => by
      simp only [awsSample, List.mem_singleton] at he
      exact ⟨"us-east-1", he, by decide⟩)).2

/-- C10 witness: a matching DELETING tenant makes the data source error and
write no state. -/
theorem claim10_deleting_is_error_witness :
    (AzureTenantDataSource.read azureDSSample (.ok [azureDSDeletingEntry])).diags ≠ [] ∧
    (AzureTenantDataSource.read azureDSSample (.ok [azureDSDeletingEntry])).state =
      .none :=
  (claim10_deleting_is_error azureDSSample [azureDSDeletingEntry]).1
    ⟨azureDSDeletingEntry, List.mem_cons_self _ _, by decide, rfl⟩

end Streamsec
